import Mathlib

/-!
Shallow embedding of `crates/catalog-unity/src/client/mod.rs` (delta-rs):
the `ClientOptions` HTTP-client configuration builder and its `client()`
assembly into a retry-wrapped client handle.

External collaborators (reqwest's `ClientBuilder`, reqwest-retry's
`ExponentialBackoff`) are modelled as explicit state records; fallible
collaborator steps (`Proxy::all` parsing, the transport `build()`) are
passed in as explicit function parameters so that both their success and
their failure behaviour can be reasoned about.
-/

namespace UnityClient

/-- `std::time::Duration`, measured in nanoseconds. -/
abbrev Duration := Nat

/-- `reqwest::header::HeaderValue`: an opaque header byte string. -/
structure HeaderValue where
  val : String
deriving DecidableEq

/-- `reqwest::header::HeaderMap`, as an association list. -/
abbrev HeaderMap := List (String × String)

/-- `reqwest::Error`: opaque underlying transport/parse error cause. -/
structure ReqwestError where
  msg : String
deriving DecidableEq

/-- `reqwest::Proxy`: a successfully parsed proxy description. -/
structure Proxy where
  url : String
deriving DecidableEq

/-- Modelled from the spec: `RetryConfig` (defined in the crate's
`client/retry.rs`, which is not under `src/`) — an abstract description of
backoff shape: minimum delay, maximum delay, maximum retry count. -/
structure RetryConfig where
  backoff_min : Duration
  backoff_max : Duration
  max_retries : Nat
deriving DecidableEq

/-- `reqwest_retry::policies::ExponentialBackoff`: a concrete
exponential-backoff retry policy, bounded by a maximum number of retries. -/
structure ExponentialBackoff where
  min_retry_interval : Duration
  max_retry_interval : Duration
  max_n_retries : Nat
deriving DecidableEq

/-- `ExponentialBackoff::builder().build_with_max_retries(n)`: the policy
with the library's default delay bounds (1 s minimum, 30 min maximum) and
the given retry ceiling. -/
def ExponentialBackoff.build_with_max_retries (n : Nat) : ExponentialBackoff :=
  { min_retry_interval := 1000000000
    max_retry_interval := 1800000000000
    max_n_retries := n }

/-- Modelled from the spec: the `impl From<&RetryConfig> for ExponentialBackoff`
conversion living in `client/retry.rs` (not under `src/`): "if `retry_config`
supplied, convert it to a concrete exponential-backoff policy". -/
def RetryConfig.toExponentialBackoff (c : RetryConfig) : ExponentialBackoff :=
  { min_retry_interval := c.backoff_min
    max_retry_interval := c.backoff_max
    max_n_retries := c.max_retries }

/-- Modelled from the spec: `UnityCatalogError` (crate root, not under `src/`),
restricted to the one variant this module produces — wrapping a
`reqwest::Error` via its `From` conversion (`UnityCatalogError::from`). -/
inductive UnityCatalogError
  | reqwest (e : ReqwestError)
deriving DecidableEq

/-- The `source: Box<dyn Error>` payload of a generic catalog error: either a
raw `reqwest::Error` (from `map_client_error`) or a `UnityCatalogError`
(from the transport build step). -/
inductive ErrorSource
  | reqwest (e : ReqwestError)
  | unity (e : UnityCatalogError)
deriving DecidableEq

/-- `deltalake_core::DataCatalogError`, restricted to the `Generic` variant
this module produces: a catalog tag plus the boxed underlying cause. -/
inductive DataCatalogError
  | Generic (catalog : String) (source : ErrorSource)
deriving DecidableEq

/-- `map_client_error` (mod.rs lines 18-23): wrap a `reqwest::Error` as
`DataCatalogError::Generic { catalog: "HTTP client", source }`. -/
def map_client_error (e : ReqwestError) : DataCatalogError :=
  DataCatalogError.Generic "HTTP client" (ErrorSource.reqwest e)

/-- Modelled from the spec: the `impl From<UnityCatalogError> for
DataCatalogError` conversion (crate root, not under `src/`), applied by the
`?` operator on the transport build step; per the spec the resulting error
"wraps the originating cause, tagged with a fixed catalog/component
identifier (\"HTTP client\")". -/
def DataCatalogError.fromUnity (e : UnityCatalogError) : DataCatalogError :=
  DataCatalogError.Generic "HTTP client" (ErrorSource.unity e)

/-- Modelled from the spec: `env!("CARGO_PKG_NAME")` build-time metadata
(the crate's Cargo.toml is not under `src/`); the concrete string is
irrelevant to every property proved below. -/
def CARGO_PKG_NAME : String := "deltalake-catalog-unity"

/-- Modelled from the spec: `env!("CARGO_PKG_VERSION")` build-time metadata. -/
def CARGO_PKG_VERSION : String := "0.?.?"

/-- `DEFAULT_USER_AGENT` (mod.rs line 25):
`concat!(env!("CARGO_PKG_NAME"), "/", env!("CARGO_PKG_VERSION"))`. -/
def DEFAULT_USER_AGENT : String := CARGO_PKG_NAME ++ "/" ++ CARGO_PKG_VERSION

/-- The HTTP-version preference held by `reqwest::ClientBuilder`:
`http1_only()` and `http2_prior_knowledge()` both assign this single field
(reqwest's `HttpVersionPref`), so whichever is applied later overwrites the
earlier one. -/
inductive HttpVersionPref
  | all
  | http1
  | http2
deriving DecidableEq

/-- The configuration state accumulated by `reqwest::ClientBuilder`: one
field per knob this module touches.  A `none` means the knob was never
applied, so the transport default stands. -/
structure TransportBuilder where
  userAgent : Option HeaderValue := none
  defaultHeaders : Option HeaderMap := none
  proxies : List Proxy := []
  timeout : Option Duration := none
  connectTimeout : Option Duration := none
  poolIdleTimeout : Option Duration := none
  poolMaxIdlePerHost : Option Nat := none
  http2KeepAliveInterval : Option Duration := none
  http2KeepAliveTimeout : Option Duration := none
  http2KeepAliveWhileIdle : Option Bool := none
  httpVersionPref : HttpVersionPref := HttpVersionPref.all
  acceptInvalidCerts : Option Bool := none
  httpsOnly : Bool := false
deriving DecidableEq

/-- `reqwest::ClientBuilder::new()`. -/
def TransportBuilder.new : TransportBuilder := {}

/-- `reqwest_middleware::ClientWithMiddleware`: the finalized transport
client (represented by the builder state it was built from) wrapped with
retry middleware carrying the resolved backoff policy. -/
structure ClientWithMiddleware where
  inner : TransportBuilder
  retry_policy : ExponentialBackoff
deriving DecidableEq

/-- `ClientOptions` (mod.rs lines 28-45): HTTP client configuration for
remote catalogs.  `#[derive(Default)]` gives every field `None` / `false`. -/
structure ClientOptions where
  user_agent : Option HeaderValue := none
  default_headers : Option HeaderMap := none
  proxy_url : Option String := none
  allow_http : Bool := false
  allow_insecure : Bool := false
  timeout : Option Duration := none
  connect_timeout : Option Duration := none
  pool_idle_timeout : Option Duration := none
  pool_max_idle_per_host : Option Nat := none
  http2_keep_alive_interval : Option Duration := none
  http2_keep_alive_timeout : Option Duration := none
  http2_keep_alive_while_idle : Bool := false
  http1_only : Bool := false
  http2_only : Bool := false
  retry_config : Option RetryConfig := none
deriving DecidableEq

/-- `ClientOptions::new()`: default values. -/
def ClientOptions.new : ClientOptions := {}

/-- `with_user_agent` (mod.rs lines 56-59). -/
def ClientOptions.with_user_agent (self : ClientOptions) (agent : HeaderValue) : ClientOptions :=
  { self with user_agent := some agent }

/-- `with_default_headers` (mod.rs lines 62-65). -/
def ClientOptions.with_default_headers (self : ClientOptions) (headers : HeaderMap) : ClientOptions :=
  { self with default_headers := some headers }

/-- `with_allow_http` (mod.rs lines 70-73). -/
def ClientOptions.with_allow_http (self : ClientOptions) (allow_http : Bool) : ClientOptions :=
  { self with allow_http := allow_http }

/-- `with_allow_invalid_certificates` (mod.rs lines 85-88). -/
def ClientOptions.with_allow_invalid_certificates (self : ClientOptions) (allow_insecure : Bool) : ClientOptions :=
  { self with allow_insecure := allow_insecure }

/-- `with_http1_only` (mod.rs lines 91-94): takes no argument, sets the flag. -/
def ClientOptions.with_http1_only (self : ClientOptions) : ClientOptions :=
  { self with http1_only := true }

/-- `with_http2_only` (mod.rs lines 97-100): takes no argument, sets the flag. -/
def ClientOptions.with_http2_only (self : ClientOptions) : ClientOptions :=
  { self with http2_only := true }

/-- `with_proxy_url` (mod.rs lines 103-106). -/
def ClientOptions.with_proxy_url (self : ClientOptions) (proxy_url : String) : ClientOptions :=
  { self with proxy_url := some proxy_url }

/-- `with_timeout` (mod.rs lines 112-115). -/
def ClientOptions.with_timeout (self : ClientOptions) (timeout : Duration) : ClientOptions :=
  { self with timeout := some timeout }

/-- `with_connect_timeout` (mod.rs lines 118-121). -/
def ClientOptions.with_connect_timeout (self : ClientOptions) (timeout : Duration) : ClientOptions :=
  { self with connect_timeout := some timeout }

/-- `with_pool_idle_timeout` (mod.rs lines 128-131). -/
def ClientOptions.with_pool_idle_timeout (self : ClientOptions) (timeout : Duration) : ClientOptions :=
  { self with pool_idle_timeout := some timeout }

/-- `with_pool_max_idle_per_host` (mod.rs lines 136-139). -/
def ClientOptions.with_pool_max_idle_per_host (self : ClientOptions) (max : Nat) : ClientOptions :=
  { self with pool_max_idle_per_host := some max }

/-- `with_http2_keep_alive_interval` (mod.rs lines 144-147). -/
def ClientOptions.with_http2_keep_alive_interval (self : ClientOptions) (interval : Duration) : ClientOptions :=
  { self with http2_keep_alive_interval := some interval }

/-- `with_http2_keep_alive_timeout` (mod.rs lines 155-158). -/
def ClientOptions.with_http2_keep_alive_timeout (self : ClientOptions) (interval : Duration) : ClientOptions :=
  { self with http2_keep_alive_timeout := some interval }

/-- `with_http2_keep_alive_while_idle` (mod.rs lines 166-169): takes no
argument, sets the flag. -/
def ClientOptions.with_http2_keep_alive_while_idle (self : ClientOptions) : ClientOptions :=
  { self with http2_keep_alive_while_idle := true }

/-- `with_retry_config` (mod.rs lines 171-174). -/
def ClientOptions.with_retry_config (self : ClientOptions) (cfg : RetryConfig) : ClientOptions :=
  { self with retry_config := some cfg }

/-- The purely applicative tail of the builder chain in `client()`
(mod.rs lines 193-234): timeouts, pool knobs, HTTP/2 keep-alive knobs,
protocol restriction, certificate bypass, and the final unconditional
`https_only(!self.allow_http)`.  Each reqwest builder call is embedded as
the record update it performs on the builder's configuration state. -/
def ClientOptions.applyOptional (self : ClientOptions) (b : TransportBuilder) : TransportBuilder :=
  let b := match self.timeout with
    | some timeout => { b with timeout := some timeout }
    | none => b
  let b := match self.connect_timeout with
    | some timeout => { b with connectTimeout := some timeout }
    | none => b
  let b := match self.pool_idle_timeout with
    | some timeout => { b with poolIdleTimeout := some timeout }
    | none => b
  let b := match self.pool_max_idle_per_host with
    | some max => { b with poolMaxIdlePerHost := some max }
    | none => b
  let b := match self.http2_keep_alive_interval with
    | some interval => { b with http2KeepAliveInterval := some interval }
    | none => b
  let b := match self.http2_keep_alive_timeout with
    | some interval => { b with http2KeepAliveTimeout := some interval }
    | none => b
  let b := if self.http2_keep_alive_while_idle
    then { b with http2KeepAliveWhileIdle := some true }
    else b
  let b := if self.http1_only
    then { b with httpVersionPref := HttpVersionPref.http1 }
    else b
  let b := if self.http2_only
    then { b with httpVersionPref := HttpVersionPref.http2 }
    else b
  let b := if self.allow_insecure
    then { b with acceptInvalidCerts := some self.allow_insecure }
    else b
  { b with httpsOnly := !self.allow_http }

/-- The builder-assembly prefix of `client()` (mod.rs lines 177-234):
start from `ClientBuilder::new()`, apply user agent (explicit or default),
default headers, then resolve the proxy — `Proxy::all` failure is mapped
through `map_client_error` and returned — and finish with the applicative
knobs of `applyOptional`.  `proxyAll` is the external `reqwest::Proxy::all`
URL parser. -/
def ClientOptions.assembleBuilder (self : ClientOptions)
    (proxyAll : String → Except ReqwestError Proxy) :
    Except DataCatalogError TransportBuilder :=
  let b := TransportBuilder.new
  let b := match self.user_agent with
    | some user_agent => { b with userAgent := some user_agent }
    | none => { b with userAgent := some (HeaderValue.mk DEFAULT_USER_AGENT) }
  let b := match self.default_headers with
    | some headers => { b with defaultHeaders := some headers }
    | none => b
  match self.proxy_url with
  | some proxy =>
    match proxyAll proxy with
    | Except.error e => Except.error (map_client_error e)
    | Except.ok p => Except.ok (self.applyOptional { b with proxies := b.proxies ++ [p] })
  | none => Except.ok (self.applyOptional b)

/-- `client()` (mod.rs lines 176-247): assemble the transport builder,
run the transport `build()` step (failures converted via
`UnityCatalogError::from` and then into a `DataCatalogError` by `?`),
resolve the retry policy (explicit config converted, else the default
`ExponentialBackoff::builder().build_with_max_retries(3)`), and wrap the
built transport with `RetryTransientMiddleware`.  `build` is the external
`reqwest::ClientBuilder::build` step; on success it returns the transport
client, represented by its configuration state. -/
def ClientOptions.client (self : ClientOptions)
    (proxyAll : String → Except ReqwestError Proxy)
    (build : TransportBuilder → Except ReqwestError TransportBuilder) :
    Except DataCatalogError ClientWithMiddleware :=
  match self.assembleBuilder proxyAll with
  | Except.error err => Except.error err
  | Except.ok finalized =>
    match build finalized with
    | Except.error e =>
      Except.error (DataCatalogError.fromUnity (UnityCatalogError.reqwest e))
    | Except.ok inner_client =>
      let retry_policy := match self.retry_config with
        | some retry => RetryConfig.toExponentialBackoff retry
        | none => ExponentialBackoff.build_with_max_retries 3
      Except.ok { inner := inner_client, retry_policy := retry_policy }

/-- The fields of `ClientOptions`, as first-class names, used to state
frame conditions ("all other fields unchanged") and last-write-wins. -/
inductive Field
  | user_agent
  | default_headers
  | proxy_url
  | allow_http
  | allow_insecure
  | timeout
  | connect_timeout
  | pool_idle_timeout
  | pool_max_idle_per_host
  | http2_keep_alive_interval
  | http2_keep_alive_timeout
  | http2_keep_alive_while_idle
  | http1_only
  | http2_only
  | retry_config
deriving DecidableEq

/-- Two configurations agree on the given field. -/
def fieldEq (a b : ClientOptions) : Field → Prop
  | Field.user_agent => a.user_agent = b.user_agent
  | Field.default_headers => a.default_headers = b.default_headers
  | Field.proxy_url => a.proxy_url = b.proxy_url
  | Field.allow_http => a.allow_http = b.allow_http
  | Field.allow_insecure => a.allow_insecure = b.allow_insecure
  | Field.timeout => a.timeout = b.timeout
  | Field.connect_timeout => a.connect_timeout = b.connect_timeout
  | Field.pool_idle_timeout => a.pool_idle_timeout = b.pool_idle_timeout
  | Field.pool_max_idle_per_host => a.pool_max_idle_per_host = b.pool_max_idle_per_host
  | Field.http2_keep_alive_interval => a.http2_keep_alive_interval = b.http2_keep_alive_interval
  | Field.http2_keep_alive_timeout => a.http2_keep_alive_timeout = b.http2_keep_alive_timeout
  | Field.http2_keep_alive_while_idle => a.http2_keep_alive_while_idle = b.http2_keep_alive_while_idle
  | Field.http1_only => a.http1_only = b.http1_only
  | Field.http2_only => a.http2_only = b.http2_only
  | Field.retry_config => a.retry_config = b.retry_config

/-- One call to a public `with_*` setter, with its argument.  The three
flag setters (`with_http1_only`, `with_http2_only`,
`with_http2_keep_alive_while_idle`) take no argument, exactly as in the
source. -/
inductive Setter
  | user_agent (v : HeaderValue)
  | default_headers (v : HeaderMap)
  | allow_http (v : Bool)
  | allow_invalid_certificates (v : Bool)
  | http1_only
  | http2_only
  | proxy_url (v : String)
  | timeout (v : Duration)
  | connect_timeout (v : Duration)
  | pool_idle_timeout (v : Duration)
  | pool_max_idle_per_host (v : Nat)
  | http2_keep_alive_interval (v : Duration)
  | http2_keep_alive_timeout (v : Duration)
  | http2_keep_alive_while_idle
  | retry_config (v : RetryConfig)
deriving DecidableEq

/-- Dispatch a `Setter` to the corresponding source setter. -/
def ClientOptions.applySetter (o : ClientOptions) : Setter → ClientOptions
  | Setter.user_agent v => o.with_user_agent v
  | Setter.default_headers v => o.with_default_headers v
  | Setter.allow_http v => o.with_allow_http v
  | Setter.allow_invalid_certificates v => o.with_allow_invalid_certificates v
  | Setter.http1_only => o.with_http1_only
  | Setter.http2_only => o.with_http2_only
  | Setter.proxy_url v => o.with_proxy_url v
  | Setter.timeout v => o.with_timeout v
  | Setter.connect_timeout v => o.with_connect_timeout v
  | Setter.pool_idle_timeout v => o.with_pool_idle_timeout v
  | Setter.pool_max_idle_per_host v => o.with_pool_max_idle_per_host v
  | Setter.http2_keep_alive_interval v => o.with_http2_keep_alive_interval v
  | Setter.http2_keep_alive_timeout v => o.with_http2_keep_alive_timeout v
  | Setter.http2_keep_alive_while_idle => o.with_http2_keep_alive_while_idle
  | Setter.retry_config v => o.with_retry_config v

/-- The unique field a setter writes. -/
def Setter.touches : Setter → Field
  | Setter.user_agent _ => Field.user_agent
  | Setter.default_headers _ => Field.default_headers
  | Setter.allow_http _ => Field.allow_http
  | Setter.allow_invalid_certificates _ => Field.allow_insecure
  | Setter.http1_only => Field.http1_only
  | Setter.http2_only => Field.http2_only
  | Setter.proxy_url _ => Field.proxy_url
  | Setter.timeout _ => Field.timeout
  | Setter.connect_timeout _ => Field.connect_timeout
  | Setter.pool_idle_timeout _ => Field.pool_idle_timeout
  | Setter.pool_max_idle_per_host _ => Field.pool_max_idle_per_host
  | Setter.http2_keep_alive_interval _ => Field.http2_keep_alive_interval
  | Setter.http2_keep_alive_timeout _ => Field.http2_keep_alive_timeout
  | Setter.http2_keep_alive_while_idle => Field.http2_keep_alive_while_idle
  | Setter.retry_config _ => Field.retry_config

/-- The configuration `o` holds, in the field the setter writes, exactly
the value that setter stores. -/
def setterApplied (o : ClientOptions) : Setter → Prop
  | Setter.user_agent v => o.user_agent = some v
  | Setter.default_headers v => o.default_headers = some v
  | Setter.allow_http v => o.allow_http = v
  | Setter.allow_invalid_certificates v => o.allow_insecure = v
  | Setter.http1_only => o.http1_only = true
  | Setter.http2_only => o.http2_only = true
  | Setter.proxy_url v => o.proxy_url = some v
  | Setter.timeout v => o.timeout = some v
  | Setter.connect_timeout v => o.connect_timeout = some v
  | Setter.pool_idle_timeout v => o.pool_idle_timeout = some v
  | Setter.pool_max_idle_per_host v => o.pool_max_idle_per_host = some v
  | Setter.http2_keep_alive_interval v => o.http2_keep_alive_interval = some v
  | Setter.http2_keep_alive_timeout v => o.http2_keep_alive_timeout = some v
  | Setter.http2_keep_alive_while_idle => o.http2_keep_alive_while_idle = true
  | Setter.retry_config v => o.retry_config = some v

/-- A whole fluent chain: fold the setter calls left to right. -/
def ClientOptions.applyAll (o : ClientOptions) (calls : List Setter) : ClientOptions :=
  calls.foldl ClientOptions.applySetter o

/-- The last setter in the chain that writes the given field, if any. -/
def lastWrite : List Setter → Field → Option Setter
  | [], _ => none
  | c :: cs, f =>
    match lastWrite cs f with
    | some s => some s
    | none => if c.touches = f then some c else none

lemma fieldEq_refl (o : ClientOptions) (f : Field) : fieldEq o o f := by
  cases f <;> rfl

lemma fieldEq_trans {a b c : ClientOptions} {f : Field}
    (h1 : fieldEq a b f) (h2 : fieldEq b c f) : fieldEq a c f := by
  cases f <;> exact h1.trans h2

/-- Each setter stores exactly its argument in its own field. -/
lemma applySetter_applied (o : ClientOptions) (s : Setter) :
    setterApplied (o.applySetter s) s := by
  cases s <;> rfl

/-- Each setter leaves every other field unchanged. -/
lemma applySetter_frame (o : ClientOptions) (s : Setter) (f : Field)
    (hf : f ≠ s.touches) : fieldEq (o.applySetter s) o f := by
  cases s <;> cases f <;> first
    | rfl
    | exact absurd rfl hf

/-- If two configurations agree on the field a setter writes, then the
setter's value being present in one transfers to the other. -/
lemma setterApplied_of_fieldEq {a b : ClientOptions} (s : Setter)
    (h1 : fieldEq a b s.touches) (h2 : setterApplied b s) : setterApplied a s := by
  cases s <;> exact h1.trans h2

set_option maxHeartbeats 3200000 in
/-- Full characterization of the applicative builder-chain tail: each knob
lands in its builder field exactly when set, `http2_prior_knowledge`
overwrites `http1_only` (it is applied later), and `https_only` is always
set to the negation of `allow_http`. -/
lemma applyOptional_spec (o : ClientOptions) (b : TransportBuilder) :
    o.applyOptional b =
      { b with
        timeout := o.timeout.or b.timeout
        connectTimeout := o.connect_timeout.or b.connectTimeout
        poolIdleTimeout := o.pool_idle_timeout.or b.poolIdleTimeout
        poolMaxIdlePerHost := o.pool_max_idle_per_host.or b.poolMaxIdlePerHost
        http2KeepAliveInterval := o.http2_keep_alive_interval.or b.http2KeepAliveInterval
        http2KeepAliveTimeout := o.http2_keep_alive_timeout.or b.http2KeepAliveTimeout
        http2KeepAliveWhileIdle :=
          if o.http2_keep_alive_while_idle then some true else b.http2KeepAliveWhileIdle
        httpVersionPref :=
          if o.http2_only then HttpVersionPref.http2
          else if o.http1_only then HttpVersionPref.http1
          else b.httpVersionPref
        acceptInvalidCerts :=
          if o.allow_insecure then some o.allow_insecure else b.acceptInvalidCerts
        httpsOnly := !o.allow_http } := by
  unfold ClientOptions.applyOptional
  cases o.timeout <;> cases o.connect_timeout <;> cases o.pool_idle_timeout <;>
    cases o.pool_max_idle_per_host <;> cases o.http2_keep_alive_interval <;>
    cases o.http2_keep_alive_timeout <;> cases o.http2_keep_alive_while_idle <;>
    cases o.http1_only <;> cases o.http2_only <;> cases o.allow_insecure <;> rfl

/-- When `assembleBuilder` succeeds, the result is `applyOptional` of a
pre-builder whose knob fields are still at their transport defaults and
whose user agent is the explicit one, or else `DEFAULT_USER_AGENT`. -/
lemma assembleBuilder_ok_shape (o : ClientOptions)
    (proxyAll : String → Except ReqwestError Proxy) (b : TransportBuilder)
    (hb : o.assembleBuilder proxyAll = Except.ok b) :
    ∃ pre : TransportBuilder,
      b = o.applyOptional pre ∧
      pre.timeout = none ∧
      pre.connectTimeout = none ∧
      pre.poolIdleTimeout = none ∧
      pre.poolMaxIdlePerHost = none ∧
      pre.http2KeepAliveInterval = none ∧
      pre.http2KeepAliveTimeout = none ∧
      pre.http2KeepAliveWhileIdle = none ∧
      pre.httpVersionPref = HttpVersionPref.all ∧
      pre.acceptInvalidCerts = none ∧
      pre.userAgent = some (o.user_agent.getD (HeaderValue.mk DEFAULT_USER_AGENT)) := by
  unfold ClientOptions.assembleBuilder at hb
  cases hua : o.user_agent <;> cases hdh : o.default_headers <;>
      cases hpu : o.proxy_url <;>
      simp only [hua, hdh, hpu, Option.getD] <;>
      simp only [hua, hdh, hpu] at hb
  case none.none.none =>
    injection hb with h
    exact ⟨_, h.symm, rfl, rfl, rfl, rfl, rfl, rfl, rfl, rfl, rfl, rfl⟩
  case none.none.some u =>
    cases hpa : proxyAll u <;> simp only [hpa] at hb
    case error e => exact Except.noConfusion hb
    case ok p =>
      injection hb with h
      exact ⟨_, h.symm, rfl, rfl, rfl, rfl, rfl, rfl, rfl, rfl, rfl, rfl⟩
  case none.some.none hs =>
    injection hb with h
    exact ⟨_, h.symm, rfl, rfl, rfl, rfl, rfl, rfl, rfl, rfl, rfl, rfl⟩
  case none.some.some hs u =>
    cases hpa : proxyAll u <;> simp only [hpa] at hb
    case error e => exact Except.noConfusion hb
    case ok p =>
      injection hb with h
      exact ⟨_, h.symm, rfl, rfl, rfl, rfl, rfl, rfl, rfl, rfl, rfl, rfl⟩
  case some.none.none ua =>
    injection hb with h
    exact ⟨_, h.symm, rfl, rfl, rfl, rfl, rfl, rfl, rfl, rfl, rfl, rfl⟩
  case some.none.some ua u =>
    cases hpa : proxyAll u <;> simp only [hpa] at hb
    case error e => exact Except.noConfusion hb
    case ok p =>
      injection hb with h
      exact ⟨_, h.symm, rfl, rfl, rfl, rfl, rfl, rfl, rfl, rfl, rfl, rfl⟩
  case some.some.none ua hs =>
    injection hb with h
    exact ⟨_, h.symm, rfl, rfl, rfl, rfl, rfl, rfl, rfl, rfl, rfl, rfl⟩
  case some.some.some ua hs u =>
    cases hpa : proxyAll u <;> simp only [hpa] at hb
    case error e => exact Except.noConfusion hb
    case ok p =>
      injection hb with h
      exact ⟨_, h.symm, rfl, rfl, rfl, rfl, rfl, rfl, rfl, rfl, rfl, rfl⟩

/-- C1: For the default configuration (no setter called), `client()` returns
a client built with the default user agent string
`<package name>/<package version>`, with TLS-only transport enforced
(`https_only` true), and with a retry policy of exponential backoff bounded
to a maximum of 3 retry attempts.  (`Except.ok` is the transport `build`
step succeeding and returning the configured transport.) -/
theorem default_configuration_client
    (proxyAll : String → Except ReqwestError Proxy) :
    ∃ c : ClientWithMiddleware,
      ClientOptions.new.client proxyAll Except.ok = Except.ok c ∧
      c.inner.userAgent = some (HeaderValue.mk DEFAULT_USER_AGENT) ∧
      DEFAULT_USER_AGENT = CARGO_PKG_NAME ++ "/" ++ CARGO_PKG_VERSION ∧
      c.inner.httpsOnly = true ∧
      c.retry_policy = ExponentialBackoff.build_with_max_retries 3 ∧
      c.retry_policy.max_n_retries = 3 :=
  ⟨_, rfl, rfl, rfl, rfl, rfl, rfl⟩

/-- C2: For every configuration whose `proxy_url` is set to a URL the proxy
parser rejects, `client()` returns the generic catalog-scoped error carrying
the underlying parse failure and tagged "HTTP client" — it neither panics
(it is a total function) nor returns a client with the proxy omitted. -/
theorem invalid_proxy_url_client_error (o : ClientOptions) (u : String)
    (e : ReqwestError) (proxyAll : String → Except ReqwestError Proxy)
    (build : TransportBuilder → Except ReqwestError TransportBuilder)
    (hu : o.proxy_url = some u) (hpa : proxyAll u = Except.error e) :
    o.client proxyAll build =
      Except.error (DataCatalogError.Generic "HTTP client" (ErrorSource.reqwest e)) := by
  unfold ClientOptions.client ClientOptions.assembleBuilder
  simp only [hu, hpa, map_client_error]

/-- C2 witness. -/
theorem invalid_proxy_url_client_error_witness :
    (ClientOptions.new.with_proxy_url "not a url").client
        (fun _ => Except.error (ReqwestError.mk "builder error"))
        Except.ok =
      Except.error (DataCatalogError.Generic "HTTP client"
        (ErrorSource.reqwest (ReqwestError.mk "builder error"))) :=
  invalid_proxy_url_client_error (ClientOptions.new.with_proxy_url "not a url")
    "not a url" (ReqwestError.mk "builder error")
    (fun _ => Except.error (ReqwestError.mk "builder error")) Except.ok rfl rfl

/-- C3: For every configuration on which the transport `build()` step fails,
`client()` returns an error that wraps the originating cause and is tagged
"HTTP client" (the `UnityCatalogError` route, modelled from the spec). -/
theorem transport_build_failure_error (o : ClientOptions)
    (proxyAll : String → Except ReqwestError Proxy)
    (build : TransportBuilder → Except ReqwestError TransportBuilder)
    (b : TransportBuilder) (e : ReqwestError)
    (hb : o.assembleBuilder proxyAll = Except.ok b)
    (hfail : build b = Except.error e) :
    o.client proxyAll build =
      Except.error (DataCatalogError.Generic "HTTP client"
        (ErrorSource.unity (UnityCatalogError.reqwest e))) := by
  unfold ClientOptions.client
  simp only [hb, hfail]
  rfl

/-- C3 witness. -/
theorem transport_build_failure_error_witness :
    ClientOptions.new.client (fun s => Except.ok (Proxy.mk s))
        (fun _ => Except.error (ReqwestError.mk "connect failure")) =
      Except.error (DataCatalogError.Generic "HTTP client"
        (ErrorSource.unity (UnityCatalogError.reqwest (ReqwestError.mk "connect failure")))) :=
  transport_build_failure_error ClientOptions.new (fun s => Except.ok (Proxy.mk s))
    (fun _ => Except.error (ReqwestError.mk "connect failure"))
    { TransportBuilder.new with
        userAgent := some (HeaderValue.mk DEFAULT_USER_AGENT), httpsOnly := true }
    (ReqwestError.mk "connect failure") rfl rfl

/-- C4: For every configuration in which both `http1_only` and `http2_only`
are set, the assembled transport builder deterministically carries the
HTTP-version preference of the flag applied later in the fixed order:
prior-knowledge HTTP/2 — and no error is produced for the conflict. -/
theorem both_protocol_flags_http2_wins (o : ClientOptions)
    (proxyAll : String → Except ReqwestError Proxy) (b : TransportBuilder)
    (h1 : o.http1_only = true) (h2 : o.http2_only = true)
    (hb : o.assembleBuilder proxyAll = Except.ok b) :
    b.httpVersionPref = HttpVersionPref.http2 := by
  obtain ⟨pre, rfl, -, -, -, -, -, -, -, -, -, -⟩ :=
    assembleBuilder_ok_shape o proxyAll b hb
  rw [applyOptional_spec]
  simp [h2]

/-- C4 witness. -/
theorem both_protocol_flags_http2_wins_witness :
    ({ TransportBuilder.new with
        userAgent := some (HeaderValue.mk DEFAULT_USER_AGENT),
        httpVersionPref := HttpVersionPref.http2,
        httpsOnly := true } : TransportBuilder).httpVersionPref = HttpVersionPref.http2 :=
  both_protocol_flags_http2_wins ClientOptions.new.with_http1_only.with_http2_only
    (fun s => Except.ok (Proxy.mk s)) _ rfl rfl rfl

/-- C5: For every configuration, each optional knob (timeout, connect
timeout, pool idle timeout, pool max idle per host, HTTP/2 keep-alive
interval / timeout / while-idle) lands in the transport builder exactly when
the corresponding field is set; an unset field leaves the builder's `none`
(transport default) in place. -/
theorem optional_knobs_applied_iff_set (o : ClientOptions)
    (proxyAll : String → Except ReqwestError Proxy) (b : TransportBuilder)
    (hb : o.assembleBuilder proxyAll = Except.ok b) :
    b.timeout = o.timeout ∧
    b.connectTimeout = o.connect_timeout ∧
    b.poolIdleTimeout = o.pool_idle_timeout ∧
    b.poolMaxIdlePerHost = o.pool_max_idle_per_host ∧
    b.http2KeepAliveInterval = o.http2_keep_alive_interval ∧
    b.http2KeepAliveTimeout = o.http2_keep_alive_timeout ∧
    b.http2KeepAliveWhileIdle =
      (if o.http2_keep_alive_while_idle then some true else none) := by
  obtain ⟨pre, rfl, ht, hc, hp, hm, hi, hk, hw, -, -, -⟩ :=
    assembleBuilder_ok_shape o proxyAll b hb
  rw [applyOptional_spec]
  refine ⟨?_, ?_, ?_, ?_, ?_, ?_, ?_⟩ <;> simp [ht, hc, hp, hm, hi, hk, hw]

/-- C5 witness. -/
theorem optional_knobs_applied_iff_set_witness :
    ({ TransportBuilder.new with
        userAgent := some (HeaderValue.mk DEFAULT_USER_AGENT),
        timeout := some 5,
        http2KeepAliveInterval := some 7,
        httpsOnly := true } : TransportBuilder).timeout =
        ((ClientOptions.new.with_timeout 5).with_http2_keep_alive_interval 7).timeout ∧
    ({ TransportBuilder.new with
        userAgent := some (HeaderValue.mk DEFAULT_USER_AGENT),
        timeout := some 5,
        http2KeepAliveInterval := some 7,
        httpsOnly := true } : TransportBuilder).connectTimeout =
        ((ClientOptions.new.with_timeout 5).with_http2_keep_alive_interval 7).connect_timeout ∧
    ({ TransportBuilder.new with
        userAgent := some (HeaderValue.mk DEFAULT_USER_AGENT),
        timeout := some 5,
        http2KeepAliveInterval := some 7,
        httpsOnly := true } : TransportBuilder).poolIdleTimeout =
        ((ClientOptions.new.with_timeout 5).with_http2_keep_alive_interval 7).pool_idle_timeout ∧
    ({ TransportBuilder.new with
        userAgent := some (HeaderValue.mk DEFAULT_USER_AGENT),
        timeout := some 5,
        http2KeepAliveInterval := some 7,
        httpsOnly := true } : TransportBuilder).poolMaxIdlePerHost =
        ((ClientOptions.new.with_timeout 5).with_http2_keep_alive_interval 7).pool_max_idle_per_host ∧
    ({ TransportBuilder.new with
        userAgent := some (HeaderValue.mk DEFAULT_USER_AGENT),
        timeout := some 5,
        http2KeepAliveInterval := some 7,
        httpsOnly := true } : TransportBuilder).http2KeepAliveInterval =
        ((ClientOptions.new.with_timeout 5).with_http2_keep_alive_interval 7).http2_keep_alive_interval ∧
    ({ TransportBuilder.new with
        userAgent := some (HeaderValue.mk DEFAULT_USER_AGENT),
        timeout := some 5,
        http2KeepAliveInterval := some 7,
        httpsOnly := true } : TransportBuilder).http2KeepAliveTimeout =
        ((ClientOptions.new.with_timeout 5).with_http2_keep_alive_interval 7).http2_keep_alive_timeout ∧
    ({ TransportBuilder.new with
        userAgent := some (HeaderValue.mk DEFAULT_USER_AGENT),
        timeout := some 5,
        http2KeepAliveInterval := some 7,
        httpsOnly := true } : TransportBuilder).http2KeepAliveWhileIdle =
      (if ((ClientOptions.new.with_timeout 5).with_http2_keep_alive_interval 7).http2_keep_alive_while_idle
        then some true else none) :=
  optional_knobs_applied_iff_set
    ((ClientOptions.new.with_timeout 5).with_http2_keep_alive_interval 7)
    (fun s => Except.ok (Proxy.mk s)) _ rfl

/-- C6: For every sequence of setter calls, the resulting configuration
holds, in every field, exactly the value stored by the last setter that
wrote that field (and the starting value where no setter wrote it); in
particular `with_timeout A` then `with_timeout B` equals `with_timeout B`
alone. -/
theorem last_write_wins :
    (∀ (o : ClientOptions) (calls : List Setter) (f : Field),
      match lastWrite calls f with
      | some s => setterApplied (o.applyAll calls) s
      | none => fieldEq (o.applyAll calls) o f) ∧
    (∀ (o : ClientOptions) (A B : Duration),
      (o.with_timeout A).with_timeout B = o.with_timeout B) := by
  constructor
  · intro o calls
    induction calls generalizing o with
    | nil => intro f; exact fieldEq_refl o f
    | cons c cs ih =>
      intro f
      have hL : lastWrite (c :: cs) f =
          match lastWrite cs f with
          | some s => some s
          | none => if c.touches = f then some c else none := rfl
      cases h : lastWrite cs f with
      | some s =>
        have h2 := ih (o.applySetter c) f
        rw [h] at h2
        rw [show lastWrite (c :: cs) f = some s by rw [hL, h]]
        exact h2
      | none =>
        have h2 := ih (o.applySetter c) f
        rw [h] at h2
        by_cases hc : c.touches = f
        · rw [show lastWrite (c :: cs) f = some c by rw [hL, h]; simp [hc]]
          refine setterApplied_of_fieldEq c ?_ (applySetter_applied o c)
          rw [hc]
          exact h2
        · rw [show lastWrite (c :: cs) f = none by rw [hL, h]; simp [hc]]
          exact fieldEq_trans h2 (applySetter_frame o c f (fun he => hc he.symm))
  · intro o A B
    rfl

/-- C7: Every `with_*` setter returns a configuration in which exactly one
field holds the newly set value and every other field is unchanged (and,
being a pure function of its receiver, performs no side effect before
`client()` is invoked). -/
theorem setter_updates_exactly_one_field (o : ClientOptions) (s : Setter) :
    setterApplied (o.applySetter s) s ∧
    ∀ f : Field, f ≠ s.touches → fieldEq (o.applySetter s) o f :=
  ⟨applySetter_applied o s, fun f hf => applySetter_frame o s f hf⟩

/-- C7 witness. -/
theorem setter_updates_exactly_one_field_witness :
    setterApplied (ClientOptions.new.applySetter (Setter.timeout 5)) (Setter.timeout 5) ∧
    fieldEq (ClientOptions.new.applySetter (Setter.timeout 5)) ClientOptions.new
      Field.allow_http :=
  ⟨(setter_updates_exactly_one_field ClientOptions.new (Setter.timeout 5)).1,
   (setter_updates_exactly_one_field ClientOptions.new (Setter.timeout 5)).2
     Field.allow_http (by decide)⟩

/-- C8: The transport is always finalized with `https_only` set to the
negation of `allow_http` (TLS-only exactly when `allow_http` is false), and
no build-time error arises from the `allow_http` choice itself: a
configuration without a proxy assembles successfully for either value, the
plaintext rejection being delegated to the transport at request time. -/
theorem tls_only_iff_not_allow_http (o : ClientOptions)
    (proxyAll : String → Except ReqwestError Proxy) :
    (∀ b : TransportBuilder,
      o.assembleBuilder proxyAll = Except.ok b → b.httpsOnly = !o.allow_http) ∧
    (o.proxy_url = none →
      ∃ b : TransportBuilder, o.assembleBuilder proxyAll = Except.ok b) := by
  constructor
  · intro b hb
    obtain ⟨pre, rfl, -, -, -, -, -, -, -, -, -, -⟩ :=
      assembleBuilder_ok_shape o proxyAll b hb
    rw [applyOptional_spec]
  · intro hpn
    unfold ClientOptions.assembleBuilder
    simp only [hpn]
    exact ⟨_, rfl⟩

/-- C8 witness. -/
theorem tls_only_iff_not_allow_http_witness :
    ((ClientOptions.new.with_allow_http true).assembleBuilder
        (fun s => Except.ok (Proxy.mk s)) =
      Except.ok { TransportBuilder.new with
        userAgent := some (HeaderValue.mk DEFAULT_USER_AGENT) }) ∧
    ({ TransportBuilder.new with
        userAgent := some (HeaderValue.mk DEFAULT_USER_AGENT) } : TransportBuilder).httpsOnly
      = !(ClientOptions.new.with_allow_http true).allow_http :=
  ⟨rfl,
   (tls_only_iff_not_allow_http (ClientOptions.new.with_allow_http true)
      (fun s => Except.ok (Proxy.mk s))).1
     { TransportBuilder.new with
        userAgent := some (HeaderValue.mk DEFAULT_USER_AGENT) } rfl⟩

/-- C10 counterexample: `with_allow_http` is a public operation that resets
`allow_http` from `true` back to its unset/false default, so the claim's
parenthetical about `allow_http` / `allow_insecure` fails. -/
theorem allow_http_reset_counterexample :
    (ClientOptions.new.with_allow_http true).allow_http = true ∧
    ((ClientOptions.new.with_allow_http true).with_allow_http false).allow_http = false :=
  ⟨rfl, rfl⟩

/-- C10 (amended): the three no-argument flag setters only ever set their
flag to `true`, and no public setter resets `http1_only`, `http2_only` or
`http2_keep_alive_while_idle` back to `false`; `allow_http` and
`allow_insecure`, by contrast, are settable to either value. -/
theorem no_arg_flags_monotone (o : ClientOptions) (s : Setter) :
    (o.with_http1_only.http1_only = true ∧
     o.with_http2_only.http2_only = true ∧
     o.with_http2_keep_alive_while_idle.http2_keep_alive_while_idle = true) ∧
    (o.http1_only = true → (o.applySetter s).http1_only = true) ∧
    (o.http2_only = true → (o.applySetter s).http2_only = true) ∧
    (o.http2_keep_alive_while_idle = true →
      (o.applySetter s).http2_keep_alive_while_idle = true) := by
  refine ⟨⟨rfl, rfl, rfl⟩, ?_, ?_, ?_⟩ <;> intro h <;> cases s <;>
    first | exact h | rfl

/-- C10 witness. -/
theorem no_arg_flags_monotone_witness :
    ClientOptions.new.with_http1_only.http1_only = true ∧
    (ClientOptions.new.with_http1_only.applySetter (Setter.allow_http false)).http1_only
      = true :=
  ⟨rfl,
   (no_arg_flags_monotone ClientOptions.new.with_http1_only
      (Setter.allow_http false)).2.1 rfl⟩

end UnityClient
